import Mathlib

/-!
Shallow embedding of the namenode_exporter translation-and-collection engine
(src/namenode_exporter.go). JSON values decoded by encoding/json into
interface-typed fields are modelled by `Json`; float64 payloads are modelled
as exact rationals, faithful here because the collector only passes numeric
values through unchanged. A Go type assertion v.(float64) that fails is a
runtime panic; emission is therefore modelled as a list of optional samples,
where `none` marks the panic point, and `emitSeq` replays the sequential
channel sends up to the first panic.
-/

namespace NamenodeExporter

/-- A decoded JSON value, as encoding/json produces into interface-typed
slots: numbers become float64 (modelled as Rat), strings, booleans, null,
arrays and objects. -/
inductive Json where
  | num : Rat → Json
  | str : String → Json
  | bool : Bool → Json
  | null : Json
  | arr : List Json → Json
  | obj : List (String × Json) → Json

/-- One bean: the decoded form of map[string]interface-value (type jmxBean in
the source). Represented as the association list of its JSON object fields;
later duplicate keys overwrite earlier ones, as in Go map construction. -/
def Bean := List (String × Json)

/-- Go map indexing nameDataMap[k]: `none` models the nil interface returned
for an absent key; later duplicates win, matching sequential map insertion
during JSON object decoding. -/
def Bean.lookup (b : Bean) (k : String) : Option Json :=
  b.foldl (fun acc kv => if kv.1 = k then some kv.2 else acc) none

/-- The unchecked Go type assertion v.(float64): succeeds exactly on a JSON
number; on anything else (absent key, string, bool, null, nested value) the
assertion panics, modelled as `none`. -/
def asFloat : Option Json → Option Rat
  | some (.num q) => some q
  | _ => none

/-- Go interface equality v == lit for a string literal lit: true exactly
when the dynamic type is string and the contents are equal; a nil interface
(absent key) or a non-string value compares unequal. -/
def jsonIsStr (v : Option Json) (s : String) : Bool :=
  match v with
  | some (.str t) => t = s
  | _ => false

/-- prometheus.BuildFQName: joins the nonempty components of
namespace, subsystem, name with underscores; empty name gives empty. -/
def buildFQName (ns sub name : String) : String :=
  if name = "" then ""
  else if ns ≠ "" ∧ sub ≠ "" then ns ++ "_" ++ sub ++ "_" ++ name
  else if ns ≠ "" then ns ++ "_" ++ name
  else if sub ≠ "" then sub ++ "_" ++ name
  else name

/-- The namespace constant of the exporter. -/
def namespaceName : String := "namenode"

/-- A metric descriptor (prometheus.Desc as used here: fully qualified name
and help string; the exporter uses no labels). -/
structure MetricDesc where
  fqName : String
  help : String
deriving DecidableEq, Repr

/-- prometheus.ValueType as used by the exporter. -/
inductive ValueType where
  | gauge
  | counter
deriving DecidableEq, Repr

/-- One emitted sample: a constant metric built by MustNewConstMetric. -/
structure Sample where
  desc : MetricDesc
  vtype : ValueType
  value : Rat
deriving DecidableEq, Repr

/-- mustNewConstBoolMetric: coerces a boolean to the float 1 or 0. -/
def mustNewConstBoolMetric (d : MetricDesc) (vt : ValueType) (value : Bool) : Sample :=
  ⟨d, vt, if value then 1 else 0⟩

def up : MetricDesc :=
  ⟨buildFQName namespaceName "" "up", "Could the namenode be reached."⟩

def uptime : MetricDesc :=
  ⟨buildFQName namespaceName "" "uptime_seconds", "Number of seconds since the namenode started."⟩

def state : MetricDesc :=
  ⟨buildFQName namespaceName "" "state", "Indicate namenode state (0 - standby, 1 - active)."⟩

def fsOperational : MetricDesc :=
  ⟨buildFQName namespaceName "" "fs_operational", "The filesystem state of this namenode."⟩

def safemodeOn : MetricDesc :=
  ⟨buildFQName namespaceName "" "safemode_on", "The safemode state of this namenode."⟩

def dataNodesLive : MetricDesc :=
  ⟨buildFQName namespaceName "" "data_nodes_live", "The number of live datanodes in this DFS."⟩

def dataNodesDead : MetricDesc :=
  ⟨buildFQName namespaceName "" "data_nodes_dead", "The number of dead datanodes in this DFS."⟩

def dfsFilesTotal : MetricDesc :=
  ⟨buildFQName namespaceName "dfs" "files_total", "Total number of files in DFS."⟩

def dfsPercentUsed : MetricDesc :=
  ⟨buildFQName namespaceName "dfs" "percent_used", "TODO(fahlke): describe this metric"⟩

def dfsPercentRemaining : MetricDesc :=
  ⟨buildFQName namespaceName "dfs" "percent_remaining", "TODO(fahlke): describe this metric"⟩

def dfsCapacityBytesTotal : MetricDesc :=
  ⟨buildFQName namespaceName "dfs" "capacity_bytes_total", "Total configured DFS storage capacity in bytes."⟩

def dfsCapacityBytesUsed : MetricDesc :=
  ⟨buildFQName namespaceName "dfs" "capacity_bytes_used", "The usage of the DFS in bytes."⟩

def dfsCapacityBytesRemaining : MetricDesc :=
  ⟨buildFQName namespaceName "dfs" "capacity_bytes_remaining", "The remaining capacity of the DFS in bytes."⟩

def dfsNonDfsBytesUsed : MetricDesc :=
  ⟨buildFQName namespaceName "dfs" "non_dfs_bytes_used", "Non-DFS usage in bytes."⟩

def dfsBlocksTotal : MetricDesc :=
  ⟨buildFQName namespaceName "dfs" "blocks_total", "Total blocks in DFS."⟩

def dfsBlocksUnderReplicated : MetricDesc :=
  ⟨buildFQName namespaceName "dfs" "blocks_under_replicated", "Under replicated blocks in DFS."⟩

def dfsBlocksPendingReplication : MetricDesc :=
  ⟨buildFQName namespaceName "dfs" "blocks_pending_replication", "TODO(fahlke): describe this metric"⟩

def dfsBlocksScheduledReplication : MetricDesc :=
  ⟨buildFQName namespaceName "dfs" "blocks_scheduled_replication", "TODO(fahlke): describe this metric"⟩

def dfsBlocksPostponedMisreplicated : MetricDesc :=
  ⟨buildFQName namespaceName "dfs" "blocks_postponed_misreplicated", "TODO(fahlke): describe this metric"⟩

def dfsBlocksPendingDeletion : MetricDesc :=
  ⟨buildFQName namespaceName "dfs" "blocks_pending_deletion", "TODO(fahlke): describe this metric"⟩

def dfsBlocksMissing : MetricDesc :=
  ⟨buildFQName namespaceName "dfs" "blocks_missing", "Missing blocks in DFS."⟩

def dfsBlocksCorrupt : MetricDesc :=
  ⟨buildFQName namespaceName "dfs" "blocks_corrupt", "Corrupted blocks in DFS."⟩

def dfsBlocksExcess : MetricDesc :=
  ⟨buildFQName namespaceName "dfs" "blocks_excess", "Excess blocks in DFS."⟩

def dfsBlockPoolBytesUsed : MetricDesc :=
  ⟨buildFQName namespaceName "dfs" "block_pool_bytes_used", "TODO(fahlke): describe this metric"⟩

def dfsBlockPoolPercentUsed : MetricDesc :=
  ⟨buildFQName namespaceName "dfs" "block_pool_percent_used", "TODO(fahlke): describe this metric"⟩

def jvmLogFatal : MetricDesc :=
  ⟨buildFQName namespaceName "jvm" "log_fatal", "TODO(fahlke): describe this metric"⟩

def jvmLogError : MetricDesc :=
  ⟨buildFQName namespaceName "jvm" "log_error", "TODO(fahlke): describe this metric"⟩

def jvmLogWarn : MetricDesc :=
  ⟨buildFQName namespaceName "jvm" "log_warn", "TODO(fahlke): describe this metric"⟩

def jvmLogInfo : MetricDesc :=
  ⟨buildFQName namespaceName "jvm" "log_info", "TODO(fahlke): describe this metric"⟩

def jvmMemHeapMegabytesUsed : MetricDesc :=
  ⟨buildFQName namespaceName "jvm" "mem_heap_megabytes_used", "TODO(fahlke): describe this metric"⟩

def jvmMemHeapMegabytesCommitted : MetricDesc :=
  ⟨buildFQName namespaceName "jvm" "mem_heap_megabytes_committed", "TODO(fahlke): describe this metric"⟩

def jvmMemNonHeapMegabytesUsed : MetricDesc :=
  ⟨buildFQName namespaceName "jvm" "mem_non_heap_megabytes_used", "TODO(fahlke): describe this metric"⟩

def jvmMemNonHeapMegabytesCommitted : MetricDesc :=
  ⟨buildFQName namespaceName "jvm" "mem_non_heap_megabytes_committed", "TODO(fahlke): describe this metric"⟩

def jvmThreadsNew : MetricDesc :=
  ⟨buildFQName namespaceName "jvm" "threads_new", "TODO(fahlke): describe this metric"⟩

def jvmThreadsRunnable : MetricDesc :=
  ⟨buildFQName namespaceName "jvm" "threads_runnable", "TODO(fahlke): describe this metric"⟩

def jvmThreadsBlocked : MetricDesc :=
  ⟨buildFQName namespaceName "jvm" "threads_blocked", "TODO(fahlke): describe this metric"⟩

def jvmThreadsWaiting : MetricDesc :=
  ⟨buildFQName namespaceName "jvm" "threads_waiting", "TODO(fahlke): describe this metric"⟩

def jvmThreadsTimedWaiting : MetricDesc :=
  ⟨buildFQName namespaceName "jvm" "threads_timed_waiting", "TODO(fahlke): describe this metric"⟩

def jvmThreadsTerminated : MetricDesc :=
  ⟨buildFQName namespaceName "jvm" "threads_terminated", "TODO(fahlke): describe this metric"⟩

/-- Describe: the fixed sequence of descriptors the exporter announces, in
the exact source order of the Describe method. -/
def Describe : List MetricDesc :=
  [up, uptime, state, fsOperational, safemodeOn, dataNodesLive, dataNodesDead,
   dfsFilesTotal, dfsPercentUsed, dfsPercentRemaining, dfsCapacityBytesTotal,
   dfsCapacityBytesUsed, dfsCapacityBytesRemaining, dfsNonDfsBytesUsed,
   dfsBlocksTotal, dfsBlocksUnderReplicated, dfsBlocksPendingReplication,
   dfsBlocksScheduledReplication, dfsBlocksPostponedMisreplicated,
   dfsBlocksPendingDeletion, dfsBlocksMissing, dfsBlocksCorrupt,
   dfsBlocksExcess, dfsBlockPoolBytesUsed, dfsBlockPoolPercentUsed,
   jvmLogFatal, jvmLogError, jvmLogWarn, jvmLogInfo,
   jvmMemHeapMegabytesUsed, jvmMemHeapMegabytesCommitted,
   jvmMemNonHeapMegabytesUsed, jvmMemNonHeapMegabytesCommitted,
   jvmThreadsNew, jvmThreadsRunnable, jvmThreadsBlocked, jvmThreadsWaiting,
   jvmThreadsTimedWaiting, jvmThreadsTerminated]

/-- One attempted channel send of MustNewConstMetric on a numeric
passthrough field: the unchecked type assertion field.(float64) either
yields the sample or panics (`none`). -/
def numEmit (b : Bean) (field : String) (d : MetricDesc) (vt : ValueType) : Option Sample :=
  (asFloat (b.lookup field)).map (fun q => ⟨d, vt, q⟩)

/-- The java.lang:type=Runtime case of the Collect switch. -/
def runtimeEmits (b : Bean) : List (Option Sample) :=
  [numEmit b "Uptime" uptime .gauge]

/-- The Hadoop NameNodeStatus case of the Collect switch. -/
def statusEmits (b : Bean) : List (Option Sample) :=
  [some (mustNewConstBoolMetric state .gauge (jsonIsStr (b.lookup "State") "active"))]

/-- The Hadoop FSNamesystem case of the Collect switch. -/
def fsNamesystemEmits (b : Bean) : List (Option Sample) :=
  [numEmit b "BlocksTotal" dfsBlocksTotal .gauge,
   numEmit b "UnderReplicatedBlocks" dfsBlocksUnderReplicated .gauge,
   numEmit b "PendingReplicationBlocks" dfsBlocksPendingReplication .gauge,
   numEmit b "ScheduledReplicationBlocks" dfsBlocksScheduledReplication .gauge,
   numEmit b "PostponedMisreplicatedBlocks" dfsBlocksPostponedMisreplicated .gauge,
   numEmit b "PendingDeletionBlocks" dfsBlocksPendingDeletion .gauge,
   numEmit b "MissingBlocks" dfsBlocksMissing .gauge,
   numEmit b "CorruptBlocks" dfsBlocksCorrupt .gauge,
   numEmit b "ExcessBlocks" dfsBlocksExcess .gauge]

/-- The Hadoop FSNamesystemState case of the Collect switch. -/
def fsNamesystemStateEmits (b : Bean) : List (Option Sample) :=
  [some (mustNewConstBoolMetric fsOperational .gauge (jsonIsStr (b.lookup "FSState") "Operational")),
   numEmit b "NumLiveDataNodes" dataNodesLive .gauge,
   numEmit b "NumDeadDataNodes" dataNodesDead .gauge,
   numEmit b "FilesTotal" dfsFilesTotal .gauge,
   numEmit b "CapacityTotal" dfsCapacityBytesTotal .gauge,
   numEmit b "CapacityUsed" dfsCapacityBytesUsed .gauge,
   numEmit b "CapacityRemaining" dfsCapacityBytesRemaining .gauge]

/-- The Hadoop NameNodeInfo case of the Collect switch. The safemode test is
the Go interface inequality Safemode-value not-equal to the empty string:
true for every value that is not exactly the string of length zero, so also
for an absent key or a non-string value. -/
def nameNodeInfoEmits (b : Bean) : List (Option Sample) :=
  [some (mustNewConstBoolMetric safemodeOn .gauge (!(jsonIsStr (b.lookup "Safemode") ""))),
   numEmit b "PercentUsed" dfsPercentUsed .gauge,
   numEmit b "PercentRemaining" dfsPercentRemaining .gauge,
   numEmit b "NonDfsUsedSpace" dfsNonDfsBytesUsed .gauge,
   numEmit b "BlockPoolUsedSpace" dfsBlockPoolBytesUsed .gauge,
   numEmit b "PercentBlockPoolUsed" dfsBlockPoolPercentUsed .gauge]

/-- The Hadoop JvmMetrics case of the Collect switch. -/
def jvmMetricsEmits (b : Bean) : List (Option Sample) :=
  [numEmit b "LogFatal" jvmLogFatal .counter,
   numEmit b "LogError" jvmLogError .counter,
   numEmit b "LogWarn" jvmLogWarn .counter,
   numEmit b "LogInfo" jvmLogInfo .counter,
   numEmit b "MemHeapUsedM" jvmMemHeapMegabytesUsed .gauge,
   numEmit b "MemHeapCommittedM" jvmMemHeapMegabytesCommitted .gauge,
   numEmit b "MemNonHeapUsedM" jvmMemNonHeapMegabytesUsed .gauge,
   numEmit b "MemNonHeapCommittedM" jvmMemNonHeapMegabytesCommitted .gauge,
   numEmit b "ThreadsNew" jvmThreadsNew .gauge,
   numEmit b "ThreadsRunnable" jvmThreadsRunnable .gauge,
   numEmit b "ThreadsBlocked" jvmThreadsBlocked .gauge,
   numEmit b "ThreadsWaiting" jvmThreadsWaiting .gauge,
   numEmit b "ThreadsTimedWaiting" jvmThreadsTimedWaiting .gauge,
   numEmit b "ThreadsTerminated" jvmThreadsTerminated .gauge]

/-- The body of the switch on the bean name string, case order as in the
source; an unmatched name falls through to no emission. -/
def namedEmits (n : String) (b : Bean) : List (Option Sample) :=
  if n = "java.lang:type=Runtime" then runtimeEmits b
  else if n = "Hadoop:service=NameNode,name=NameNodeStatus" then statusEmits b
  else if n = "Hadoop:service=NameNode,name=FSNamesystem" then fsNamesystemEmits b
  else if n = "Hadoop:service=NameNode,name=FSNamesystemState" then fsNamesystemStateEmits b
  else if n = "Hadoop:service=NameNode,name=NameNodeInfo" then nameNodeInfoEmits b
  else if n = "Hadoop:service=NameNode,name=JvmMetrics" then jvmMetricsEmits b
  else []

/-- The per-bean dispatch: switch nameDataMap of key name. The switch
compares an interface value against string literals, so a bean whose name
value is absent or not a string matches no case. -/
def beanEmits (b : Bean) : List (Option Sample) :=
  match b.lookup "name" with
  | some (.str n) => namedEmits n b
  | _ => []

/-- Replays a sequence of attempted channel sends: samples before the first
panic are delivered in order; the boolean records whether a panic occurred,
which stops all further emission. -/
def emitSeq : List (Option Sample) → List Sample × Bool
  | [] => ([], false)
  | none :: _ => ([], true)
  | some s :: rest =>
    let r := emitSeq rest
    (s :: r.1, r.2)

/-- The bean loop of Collect: beans processed in array order; a panic inside
one bean aborts the loop (and the process), keeping the samples already
sent. -/
def collectBeans : List Bean → List Sample × Bool
  | [] => ([], false)
  | b :: rest =>
    let r := emitSeq (beanEmits b)
    if r.2 then (r.1, true)
    else
      let rr := collectBeans rest
      (r.1 ++ rr.1, rr.2)

/-- The successful-decode tail of Collect: the up gauge with value 1 is sent
first, then the bean loop runs. -/
def collectEnvelope (beans : List Bean) : List Sample × Bool :=
  let r := collectBeans beans
  (⟨up, .gauge, 1⟩ :: r.1, r.2)

/-- Decoding one element of the beans array into jmxBean
(map of string to interface): a JSON object gives its field map, JSON null
leaves the map nil, and any other JSON kind is a decode error, following
encoding/json unmarshalling into a map. -/
def decodeBean : Json → Except Unit Bean
  | .obj kvs => .ok kvs
  | .null => .ok []
  | _ => .error ()

/-- Decoding the value of the beans key into the slice of beans: null leaves
the slice nil, an array decodes elementwise, anything else errors. -/
def decodeBeans : Json → Except Unit (List Bean)
  | .null => .ok []
  | .arr xs => xs.mapM decodeBean
  | _ => .error ()

/-- Decoding a parsed JSON document into jmxEnvelope, following encoding/json
unmarshalling into the struct with the single tagged field beans: a
top-level object decodes its beans field when present and leaves the slice
nil (no error) when the key is absent; top-level null also decodes to the
zero value; any other top-level kind is a decode error. -/
def decodeEnvelope : Json → Except Unit (List Bean)
  | .null => .ok []
  | .obj kvs =>
    match Bean.lookup kvs "beans" with
    | none => .ok []
    | some v => decodeBeans v
  | _ => .error ()

/-- The body of a received HTTP response, as seen by the JSON decoder. -/
inductive BodyContent where
  | malformed : BodyContent
  | json : Json → BodyContent

/-- What one collection cycle sees from the HTTP fetch: a transport error
from httpClient.Get, or a response with a status code and a body that either
fails JSON parsing or parses to a JSON document. -/
inductive FetchOutcome where
  | netError : FetchOutcome
  | response : Nat → BodyContent → FetchOutcome

/-- Collect, as a function of the fetch outcome: transport error, non-200
status, or decode failure each emit only the up gauge with value 0 and
return; otherwise up with value 1 is emitted and the bean loop runs. -/
def Collect : FetchOutcome → List Sample × Bool
  | .netError => ([⟨up, .gauge, 0⟩], false)
  | .response status body =>
    if status ≠ 200 then ([⟨up, .gauge, 0⟩], false)
    else
      match body with
      | .malformed => ([⟨up, .gauge, 0⟩], false)
      | .json j =>
        match decodeEnvelope j with
        | .error _ => ([⟨up, .gauge, 0⟩], false)
        | .ok beans => collectEnvelope beans

/-- The six bean names carrying a case in the Collect switch. -/
def recognizedNames : List String :=
  ["java.lang:type=Runtime",
   "Hadoop:service=NameNode,name=NameNodeStatus",
   "Hadoop:service=NameNode,name=FSNamesystem",
   "Hadoop:service=NameNode,name=FSNamesystemState",
   "Hadoop:service=NameNode,name=NameNodeInfo",
   "Hadoop:service=NameNode,name=JvmMetrics"]

/-- A bean is recognized when its name value is a string matching one of the
switch cases. -/
def Bean.isRecognized (b : Bean) : Bool :=
  match b.lookup "name" with
  | some (.str n) => recognizedNames.contains n
  | _ => false

/-- A bean whose name value is the string n dispatches to the matching
switch body. -/
theorem beanEmits_name (b : Bean) (n : String) (h : b.lookup "name" = some (.str n)) :
    beanEmits b = namedEmits n b := by
  unfold beanEmits
  rw [h]

/-- A bean outside the recognized set matches no switch case and emits
nothing. -/
theorem beanEmits_of_not_recognized (b : Bean) (h : b.isRecognized = false) :
    beanEmits b = [] := by
  unfold Bean.isRecognized at h
  unfold beanEmits
  cases hb : b.lookup "name" with
  | none => rfl
  | some j =>
    cases j with
    | str n =>
      rw [hb] at h
      simp [recognizedNames] at h
      obtain ⟨h1, h2, h3, h4, h5, h6⟩ := h
      simp [namedEmits, h1, h2, h3, h4, h5, h6]
    | num q => rfl
    | bool x => rfl
    | null => rfl
    | arr xs => rfl
    | obj kvs => rfl

/-- Emission of a fully populated Runtime bean. -/
theorem runtimeEmits_collect (b : Bean) (u : Rat)
    (hn : b.lookup "name" = some (.str "java.lang:type=Runtime"))
    (hu : b.lookup "Uptime" = some (.num u)) :
    emitSeq (beanEmits b) = ([⟨uptime, .gauge, u⟩], false) := by
  rw [beanEmits_name b _ hn]
  simp [namedEmits, runtimeEmits, numEmit, hu, asFloat, emitSeq]

/-- Emission of a NameNodeStatus bean whose State field is a string. -/
theorem statusEmits_collect (b : Bean) (st : String)
    (hn : b.lookup "name" = some (.str "Hadoop:service=NameNode,name=NameNodeStatus"))
    (hs : b.lookup "State" = some (.str st)) :
    emitSeq (beanEmits b) =
      ([⟨state, .gauge, if st = "active" then 1 else 0⟩], false) := by
  rw [beanEmits_name b _ hn]
  by_cases hc : st = "active" <;>
    simp [namedEmits, statusEmits, mustNewConstBoolMetric, jsonIsStr, hs, hc, emitSeq]

/-- Emission of a fully populated FSNamesystem bean. -/
theorem fsNamesystemEmits_collect (b : Bean)
    (bt bur bpr bsr bpm bpd bm bc be : Rat)
    (hn : b.lookup "name" = some (.str "Hadoop:service=NameNode,name=FSNamesystem"))
    (h1 : b.lookup "BlocksTotal" = some (.num bt))
    (h2 : b.lookup "UnderReplicatedBlocks" = some (.num bur))
    (h3 : b.lookup "PendingReplicationBlocks" = some (.num bpr))
    (h4 : b.lookup "ScheduledReplicationBlocks" = some (.num bsr))
    (h5 : b.lookup "PostponedMisreplicatedBlocks" = some (.num bpm))
    (h6 : b.lookup "PendingDeletionBlocks" = some (.num bpd))
    (h7 : b.lookup "MissingBlocks" = some (.num bm))
    (h8 : b.lookup "CorruptBlocks" = some (.num bc))
    (h9 : b.lookup "ExcessBlocks" = some (.num be)) :
    emitSeq (beanEmits b) =
      ([⟨dfsBlocksTotal, .gauge, bt⟩,
        ⟨dfsBlocksUnderReplicated, .gauge, bur⟩,
        ⟨dfsBlocksPendingReplication, .gauge, bpr⟩,
        ⟨dfsBlocksScheduledReplication, .gauge, bsr⟩,
        ⟨dfsBlocksPostponedMisreplicated, .gauge, bpm⟩,
        ⟨dfsBlocksPendingDeletion, .gauge, bpd⟩,
        ⟨dfsBlocksMissing, .gauge, bm⟩,
        ⟨dfsBlocksCorrupt, .gauge, bc⟩,
        ⟨dfsBlocksExcess, .gauge, be⟩], false) := by
  rw [beanEmits_name b _ hn]
  simp [namedEmits, fsNamesystemEmits, numEmit, asFloat, emitSeq,
        h1, h2, h3, h4, h5, h6, h7, h8, h9]

/-- Emission of a fully populated FSNamesystemState bean whose FSState field
is a string. -/
theorem fsNamesystemStateEmits_collect (b : Bean) (fs : String)
    (live dead files capT capU capR : Rat)
    (hn : b.lookup "name" = some (.str "Hadoop:service=NameNode,name=FSNamesystemState"))
    (h0 : b.lookup "FSState" = some (.str fs))
    (h1 : b.lookup "NumLiveDataNodes" = some (.num live))
    (h2 : b.lookup "NumDeadDataNodes" = some (.num dead))
    (h3 : b.lookup "FilesTotal" = some (.num files))
    (h4 : b.lookup "CapacityTotal" = some (.num capT))
    (h5 : b.lookup "CapacityUsed" = some (.num capU))
    (h6 : b.lookup "CapacityRemaining" = some (.num capR)) :
    emitSeq (beanEmits b) =
      ([⟨fsOperational, .gauge, if fs = "Operational" then 1 else 0⟩,
        ⟨dataNodesLive, .gauge, live⟩,
        ⟨dataNodesDead, .gauge, dead⟩,
        ⟨dfsFilesTotal, .gauge, files⟩,
        ⟨dfsCapacityBytesTotal, .gauge, capT⟩,
        ⟨dfsCapacityBytesUsed, .gauge, capU⟩,
        ⟨dfsCapacityBytesRemaining, .gauge, capR⟩], false) := by
  rw [beanEmits_name b _ hn]
  by_cases hc : fs = "Operational" <;>
    simp [namedEmits, fsNamesystemStateEmits, mustNewConstBoolMetric, jsonIsStr,
          numEmit, asFloat, emitSeq, h0, h1, h2, h3, h4, h5, h6, hc]

/-- Emission of a fully populated NameNodeInfo bean whose Safemode field is
a string. -/
theorem nameNodeInfoEmits_collect (b : Bean) (sf : String)
    (pu prr nd bpu bpp : Rat)
    (hn : b.lookup "name" = some (.str "Hadoop:service=NameNode,name=NameNodeInfo"))
    (h0 : b.lookup "Safemode" = some (.str sf))
    (h1 : b.lookup "PercentUsed" = some (.num pu))
    (h2 : b.lookup "PercentRemaining" = some (.num prr))
    (h3 : b.lookup "NonDfsUsedSpace" = some (.num nd))
    (h4 : b.lookup "BlockPoolUsedSpace" = some (.num bpu))
    (h5 : b.lookup "PercentBlockPoolUsed" = some (.num bpp)) :
    emitSeq (beanEmits b) =
      ([⟨safemodeOn, .gauge, if sf = "" then 0 else 1⟩,
        ⟨dfsPercentUsed, .gauge, pu⟩,
        ⟨dfsPercentRemaining, .gauge, prr⟩,
        ⟨dfsNonDfsBytesUsed, .gauge, nd⟩,
        ⟨dfsBlockPoolBytesUsed, .gauge, bpu⟩,
        ⟨dfsBlockPoolPercentUsed, .gauge, bpp⟩], false) := by
  rw [beanEmits_name b _ hn]
  by_cases hc : sf = "" <;>
    simp [namedEmits, nameNodeInfoEmits, mustNewConstBoolMetric, jsonIsStr,
          numEmit, asFloat, emitSeq, h0, h1, h2, h3, h4, h5, hc]

/-- Emission of a fully populated JvmMetrics bean. -/
theorem jvmMetricsEmits_collect (b : Bean)
    (lf le lw li hpu hpc nhu nhc tn tr tb tw ttw tte : Rat)
    (hn : b.lookup "name" = some (.str "Hadoop:service=NameNode,name=JvmMetrics"))
    (h1 : b.lookup "LogFatal" = some (.num lf))
    (h2 : b.lookup "LogError" = some (.num le))
    (h3 : b.lookup "LogWarn" = some (.num lw))
    (h4 : b.lookup "LogInfo" = some (.num li))
    (h5 : b.lookup "MemHeapUsedM" = some (.num hpu))
    (h6 : b.lookup "MemHeapCommittedM" = some (.num hpc))
    (h7 : b.lookup "MemNonHeapUsedM" = some (.num nhu))
    (h8 : b.lookup "MemNonHeapCommittedM" = some (.num nhc))
    (h9 : b.lookup "ThreadsNew" = some (.num tn))
    (h10 : b.lookup "ThreadsRunnable" = some (.num tr))
    (h11 : b.lookup "ThreadsBlocked" = some (.num tb))
    (h12 : b.lookup "ThreadsWaiting" = some (.num tw))
    (h13 : b.lookup "ThreadsTimedWaiting" = some (.num ttw))
    (h14 : b.lookup "ThreadsTerminated" = some (.num tte)) :
    emitSeq (beanEmits b) =
      ([⟨jvmLogFatal, .counter, lf⟩,
        ⟨jvmLogError, .counter, le⟩,
        ⟨jvmLogWarn, .counter, lw⟩,
        ⟨jvmLogInfo, .counter, li⟩,
        ⟨jvmMemHeapMegabytesUsed, .gauge, hpu⟩,
        ⟨jvmMemHeapMegabytesCommitted, .gauge, hpc⟩,
        ⟨jvmMemNonHeapMegabytesUsed, .gauge, nhu⟩,
        ⟨jvmMemNonHeapMegabytesCommitted, .gauge, nhc⟩,
        ⟨jvmThreadsNew, .gauge, tn⟩,
        ⟨jvmThreadsRunnable, .gauge, tr⟩,
        ⟨jvmThreadsBlocked, .gauge, tb⟩,
        ⟨jvmThreadsWaiting, .gauge, tw⟩,
        ⟨jvmThreadsTimedWaiting, .gauge, ttw⟩,
        ⟨jvmThreadsTerminated, .gauge, tte⟩], false) := by
  rw [beanEmits_name b _ hn]
  simp [namedEmits, jvmMetricsEmits, numEmit, asFloat, emitSeq,
        h1, h2, h3, h4, h5, h6, h7, h8, h9, h10, h11, h12, h13, h14]

/-- When no bean panics, the bean loop emits exactly the concatenation of
the per-bean emissions, in bean-array order. -/
theorem collectBeans_join (bs : List Bean)
    (h : ∀ b ∈ bs, (emitSeq (beanEmits b)).2 = false) :
    collectBeans bs = ((bs.map fun b => (emitSeq (beanEmits b)).1).flatten, false) := by
  induction bs with
  | nil => rfl
  | cons b rest ih =>
    have hb : (emitSeq (beanEmits b)).2 = false := h b (List.mem_cons_self b rest)
    have hrest : ∀ x ∈ rest, (emitSeq (beanEmits x)).2 = false :=
      fun x hx => h x (List.mem_cons_of_mem b hx)
    simp [collectBeans, hb, ih hrest]

/-- Every sample delivered by emitSeq came from one of the attempted sends. -/
theorem mem_of_mem_emitSeq (l : List (Option Sample)) (s : Sample)
    (h : s ∈ (emitSeq l).1) : some s ∈ l := by
  induction l with
  | nil => simp [emitSeq] at h
  | cons o rest ih =>
    cases o with
    | none => simp [emitSeq] at h
    | some a =>
      simp only [emitSeq, List.mem_cons] at h
      cases h with
      | inl h => exact List.mem_cons.mpr (Or.inl (by rw [h]))
      | inr h => exact List.mem_cons_of_mem _ (ih h)

/-- Every sample delivered by the bean loop came from the dispatch of one of
the beans. -/
theorem mem_of_mem_collectBeans (bs : List Bean) (s : Sample)
    (h : s ∈ (collectBeans bs).1) : ∃ b ∈ bs, some s ∈ beanEmits b := by
  induction bs with
  | nil => simp [collectBeans] at h
  | cons b rest ih =>
    simp only [collectBeans] at h
    by_cases hp : (emitSeq (beanEmits b)).2 = true
    · rw [if_pos hp] at h
      exact ⟨b, List.mem_cons_self b rest, mem_of_mem_emitSeq _ _ h⟩
    · rw [if_neg hp] at h
      simp only [List.mem_append] at h
      cases h with
      | inl h => exact ⟨b, List.mem_cons_self b rest, mem_of_mem_emitSeq _ _ h⟩
      | inr h =>
        obtain ⟨c, hc, hcs⟩ := ih h
        exact ⟨c, List.mem_cons_of_mem b hc, hcs⟩

/-- The descriptor of a numeric passthrough sample is the descriptor the
mapping table assigns to that field. -/
theorem numEmit_desc {b : Bean} {f : String} {d : MetricDesc} {vt : ValueType}
    {s : Sample} (h : numEmit b f d vt = some s) : s.desc = d := by
  unfold numEmit at h
  cases hv : asFloat (b.lookup f) with
  | none => rw [hv] at h; simp at h
  | some q =>
    rw [hv] at h
    simp only [Option.map_some'] at h
    rw [← Option.some.inj h]

/-- The descriptor of a boolean-coerced sample. -/
theorem mustNewConstBoolMetric_desc (d : MetricDesc) (vt : ValueType) (v : Bool) :
    (mustNewConstBoolMetric d vt v).desc = d := rfl

/-- Every sample a bean dispatch can produce uses an announced descriptor. -/
theorem beanEmits_desc (b : Bean) (s : Sample)
    (h : some s ∈ beanEmits b) : s.desc ∈ Describe := by
  unfold beanEmits at h
  cases hb : b.lookup "name" with
  | none => rw [hb] at h; simp at h
  | some j =>
    rw [hb] at h
    cases j with
    | num q => simp at h
    | bool x => simp at h
    | null => simp at h
    | arr xs => simp at h
    | obj kvs => simp at h
    | str n =>
      simp only [namedEmits] at h
      split_ifs at h
      · simp only [runtimeEmits, List.mem_singleton] at h
        rw [numEmit_desc h.symm]; decide
      · simp only [statusEmits, List.mem_singleton] at h
        rw [Option.some.inj h, mustNewConstBoolMetric_desc]; decide
      · simp only [fsNamesystemEmits, List.mem_cons, List.not_mem_nil, or_false] at h
        rcases h with h | h | h | h | h | h | h | h | h
        all_goals (rw [numEmit_desc h.symm]; decide)
      · simp only [fsNamesystemStateEmits, List.mem_cons, List.not_mem_nil, or_false] at h
        rcases h with h | h | h | h | h | h | h
        · rw [Option.some.inj h, mustNewConstBoolMetric_desc]; decide
        all_goals (rw [numEmit_desc h.symm]; decide)
      · simp only [nameNodeInfoEmits, List.mem_cons, List.not_mem_nil, or_false] at h
        rcases h with h | h | h | h | h | h
        · rw [Option.some.inj h, mustNewConstBoolMetric_desc]; decide
        all_goals (rw [numEmit_desc h.symm]; decide)
      · simp only [jvmMetricsEmits, List.mem_cons, List.not_mem_nil, or_false] at h
        rcases h with h | h | h | h | h | h | h | h | h | h | h | h | h | h
        all_goals (rw [numEmit_desc h.symm]; decide)
      · simp at h

/-- Claim C2, as stated, is false on the code at a concrete input: an HTTP
200 response whose body is the well-formed JSON object with no beans key.
encoding/json decodes the envelope struct successfully with a nil slice, so
the cycle emits up with value 1, not the claimed lone up with value 0. -/
theorem missing_beans_key_counterexample :
    Collect (.response 200 (.json (.obj []))) ≠ ([⟨up, .gauge, 0⟩], false) ∧
    Collect (.response 200 (.json (.obj []))) = ([⟨up, .gauge, 1⟩], false) := by
  constructor
  · decide
  · rfl

/-- Claim C2 (amended): a cycle that fails before translation — a transport
error, a non-200 status, a malformed body, or a JSON document the envelope
decode rejects — emits exactly the up gauge with value 0 and nothing else.
A missing beans key is not a decode failure: the envelope decodes to an
empty bean list. -/
theorem failure_cycles_emit_only_up_zero :
    Collect .netError = ([⟨up, .gauge, 0⟩], false) ∧
    (∀ (status : Nat) (body : BodyContent), status ≠ 200 →
      Collect (.response status body) = ([⟨up, .gauge, 0⟩], false)) ∧
    Collect (.response 200 .malformed) = ([⟨up, .gauge, 0⟩], false) ∧
    (∀ j : Json, decodeEnvelope j = .error () →
      Collect (.response 200 (.json j)) = ([⟨up, .gauge, 0⟩], false)) := by
  refine ⟨rfl, ?_, rfl, ?_⟩
  · intro status body h
    simp [Collect, h]
  · intro j h
    simp [Collect, h]

/-- Witness for the amended C2 at a 503 status and at a top-level JSON
number, both yielding only the up gauge with value 0. -/
theorem failure_cycles_emit_only_up_zero_witness :
    (503 ≠ 200) ∧
    Collect (.response 503 (.json (.obj []))) = ([⟨up, .gauge, 0⟩], false) ∧
    decodeEnvelope (.num 7) = .error () ∧
    Collect (.response 200 (.json (.num 7))) = ([⟨up, .gauge, 0⟩], false) :=
  ⟨by decide,
   failure_cycles_emit_only_up_zero.2.1 503 _ (by decide),
   rfl,
   failure_cycles_emit_only_up_zero.2.2.2 (.num 7) rfl⟩

/-- Claim C3: at the concrete failing input — HTTP 200 with a well-formed
envelope containing a recognized Runtime bean that lacks the Uptime field —
the unchecked type assertion Uptime.(float64) panics: the cycle records a
panic after having emitted only the up gauge with value 1. In the source
this panic escapes Collect (the registry provides no recovery around a
collector goroutine), aborting the serving process, against the stated
requirement that a coercion fault must not crash the serving process. -/
theorem coercion_fault_panics :
    Collect (.response 200 (.json (.obj [("beans",
      .arr [.obj [("name", .str "java.lang:type=Runtime")]])]))) =
      ([⟨up, .gauge, 1⟩], true) := rfl

/-- Claim C4: for a NameNodeStatus bean whose State value is the string st,
the emitted state sample is exactly 1 when st is the literal active and
exactly 0 for every other string, the empty string included. -/
theorem state_sample_iff_active (b : Bean) (st : String)
    (hn : b.lookup "name" = some (.str "Hadoop:service=NameNode,name=NameNodeStatus"))
    (hs : b.lookup "State" = some (.str st)) :
    emitSeq (beanEmits b) =
      ([⟨state, .gauge, if st = "active" then 1 else 0⟩], false) :=
  statusEmits_collect b st hn hs

/-- Witness for C4 at the standby state string, yielding the value 0. -/
theorem state_sample_iff_active_witness :
    emitSeq (beanEmits [("name", Json.str "Hadoop:service=NameNode,name=NameNodeStatus"),
        ("State", Json.str "standby")]) =
      ([⟨state, .gauge, if "standby" = "active" then 1 else 0⟩], false) :=
  state_sample_iff_active _ "standby" rfl rfl

/-- Claim C5: for a NameNodeInfo bean whose Safemode value is the string sf,
the first sample this bean emits is the safemode gauge, with value 1 exactly
when sf is nonempty — a whitespace-only string counts as nonempty — and 0
when sf is the empty string. -/
theorem safemode_sample_nonempty (b : Bean) (sf : String)
    (hn : b.lookup "name" = some (.str "Hadoop:service=NameNode,name=NameNodeInfo"))
    (hs : b.lookup "Safemode" = some (.str sf)) :
    (emitSeq (beanEmits b)).1.head? =
      some ⟨safemodeOn, .gauge, if sf = "" then 0 else 1⟩ := by
  rw [beanEmits_name b _ hn]
  by_cases hc : sf = "" <;>
    simp [namedEmits, nameNodeInfoEmits, mustNewConstBoolMetric, jsonIsStr,
          hs, hc, emitSeq]

/-- Witness for C5 at a whitespace-only safemode string, yielding value 1. -/
theorem safemode_sample_nonempty_witness :
    (emitSeq (beanEmits [("name", Json.str "Hadoop:service=NameNode,name=NameNodeInfo"),
        ("Safemode", Json.str " ")])).1.head? =
      some ⟨safemodeOn, .gauge, if " " = "" then 0 else 1⟩ :=
  safemode_sample_nonempty _ " " rfl rfl

/-- Claim C6: for a Runtime bean with numeric Uptime u, the emitted sample
is exactly the value u under the uptime descriptor, whose full metric name
is namenode_uptime_seconds; no unit conversion is applied. -/
theorem uptime_passthrough (b : Bean) (u : Rat)
    (hn : b.lookup "name" = some (.str "java.lang:type=Runtime"))
    (hu : b.lookup "Uptime" = some (.num u)) :
    emitSeq (beanEmits b) = ([⟨uptime, .gauge, u⟩], false) ∧
    uptime.fqName = "namenode_uptime_seconds" :=
  ⟨runtimeEmits_collect b u hn hu, by decide⟩

/-- Witness for C6 at the uptime value 86400000. -/
theorem uptime_passthrough_witness :
    emitSeq (beanEmits [("name", Json.str "java.lang:type=Runtime"),
        ("Uptime", Json.num 86400000)]) =
      ([⟨uptime, .gauge, 86400000⟩], false) ∧
    uptime.fqName = "namenode_uptime_seconds" :=
  uptime_passthrough _ 86400000 rfl rfl

/-- Claim C7: in a cycle that reaches translation and completes it without a
panic, the up gauge with value 1 is emitted strictly first, and the field
samples are the concatenation, in bean-array order, of the per-bean
emissions, each of which lists its fields in the fixed order of the mapping
table for that bean name. -/
theorem emission_order (bs : List Bean)
    (h : ∀ b ∈ bs, (emitSeq (beanEmits b)).2 = false) :
    collectEnvelope bs =
      (⟨up, .gauge, 1⟩ :: (bs.map fun b => (emitSeq (beanEmits b)).1).flatten,
       false) := by
  unfold collectEnvelope
  rw [collectBeans_join bs h]

/-- Witness for C7 at a one-bean envelope. -/
theorem emission_order_witness :
    collectEnvelope [[("name", Json.str "java.lang:type=Runtime"), ("Uptime", Json.num 5)]] =
      (⟨up, .gauge, 1⟩ ::
        (([[("name", Json.str "java.lang:type=Runtime"), ("Uptime", Json.num 5)]].map
          fun b => (emitSeq (beanEmits b)).1).flatten), false) :=
  emission_order _ (by
    intro b hb
    simp only [List.mem_singleton] at hb
    subst hb
    rfl)

/-- Claim C8: deleting every bean whose name is outside the recognized set
leaves the bean-loop output unchanged, and an envelope with no recognized
bean yields exactly the up gauge with value 1 and nothing else. -/
theorem unrecognized_beans_ignored (bs : List Bean) :
    collectBeans (bs.filter fun b => b.isRecognized) = collectBeans bs ∧
    ((bs.filter fun b => b.isRecognized) = [] →
      collectEnvelope bs = ([⟨up, .gauge, 1⟩], false)) := by
  have hfil : ∀ l : List Bean,
      collectBeans (l.filter fun b => b.isRecognized) = collectBeans l := by
    intro l
    induction l with
    | nil => rfl
    | cons b rest ih =>
      cases hr : b.isRecognized with
      | false =>
        rw [List.filter_cons_of_neg (by simp [hr])]
        simp [collectBeans, beanEmits_of_not_recognized b hr, emitSeq, ih]
      | true =>
        rw [List.filter_cons_of_pos (by simp [hr])]
        simp [collectBeans, ih]
  refine ⟨hfil bs, fun h => ?_⟩
  unfold collectEnvelope
  rw [← hfil bs, h]
  rfl

/-- Witness for C8 at an envelope holding a single unrecognized bean. -/
theorem unrecognized_beans_ignored_witness :
    ((([[("name", Json.str "java.lang:type=Memory")]] : List Bean).filter
        fun b => b.isRecognized) = []) ∧
    collectEnvelope [[("name", Json.str "java.lang:type=Memory")]] =
      ([⟨up, .gauge, 1⟩], false) :=
  ⟨rfl, (unrecognized_beans_ignored _).2 rfl⟩

/-- Claim C9: whatever the fetch outcome, every sample Collect emits uses a
descriptor announced by Describe. -/
theorem collect_subset_describe (f : FetchOutcome) (s : Sample)
    (h : s ∈ (Collect f).1) : s.desc ∈ Describe := by
  cases f with
  | netError =>
    simp only [Collect, List.mem_singleton] at h
    rw [h]; decide
  | response status body =>
    simp only [Collect] at h
    by_cases hst : status ≠ 200
    · rw [if_pos hst] at h
      simp only [List.mem_singleton] at h
      rw [h]; decide
    · rw [if_neg hst] at h
      cases body with
      | malformed =>
        simp only [List.mem_singleton] at h
        rw [h]; decide
      | json j =>
        cases hd : decodeEnvelope j with
        | error e =>
          simp only [hd, List.mem_singleton] at h
          rw [h]; decide
        | ok beans =>
          simp only [hd, collectEnvelope, List.mem_cons] at h
          cases h with
          | inl h => rw [h]; decide
          | inr h =>
            obtain ⟨b, _, hbs⟩ := mem_of_mem_collectBeans beans s h
            exact beanEmits_desc b s hbs

/-- Witness for C9 at the transport-error outcome and its up sample. -/
theorem collect_subset_describe_witness :
    (⟨up, .gauge, 0⟩ : Sample) ∈ (Collect .netError).1 ∧
    (⟨up, .gauge, 0⟩ : Sample).desc ∈ Describe :=
  ⟨by decide, collect_subset_describe .netError _ (by decide)⟩

/-- Claim C10: for a NameNodeInfo bean in which the Safemode key is absent
or holds a non-string value, the Go inequality against the empty string is
true, so the first sample this bean emits is the safemode gauge with value
1; no coercion fault is reported for this field. -/
theorem safemode_absent_sample (b : Bean)
    (hn : b.lookup "name" = some (.str "Hadoop:service=NameNode,name=NameNodeInfo"))
    (habs : ∀ t : String, b.lookup "Safemode" ≠ some (.str t)) :
    (emitSeq (beanEmits b)).1.head? = some ⟨safemodeOn, .gauge, 1⟩ := by
  rw [beanEmits_name b _ hn]
  have hfalse : jsonIsStr (b.lookup "Safemode") "" = false := by
    cases hv : b.lookup "Safemode" with
    | none => rfl
    | some j =>
      cases j with
      | str t => exact absurd hv (habs t)
      | num q => rfl
      | bool x => rfl
      | null => rfl
      | arr xs => rfl
      | obj kvs => rfl
  simp [namedEmits, nameNodeInfoEmits, mustNewConstBoolMetric, hfalse, emitSeq]

/-- Witness for C10 at a bean whose Safemode key is absent. -/
theorem safemode_absent_sample_witness :
    (emitSeq (beanEmits [("name", Json.str "Hadoop:service=NameNode,name=NameNodeInfo")])).1.head? =
      some ⟨safemodeOn, .gauge, 1⟩ :=
  safemode_absent_sample _ rfl (fun _ h => nomatch h)

set_option maxHeartbeats 2000000 in
/-- Claim C1: an envelope listing one bean per recognized name, each fully
populated with values of the expected types, makes Collect emit exactly the
up gauge with value 1 followed by the 38 bean-derived samples, each numeric
field passed through literally and each string field coerced by its fixed
rule; no panic occurs and no sample is missing or added. -/
theorem collect_full_envelope (b1 b2 b3 b4 b5 b6 : Bean)
    (u : Rat) (st : String)
    (bt bur bpr bsr bpm bpd bm bc be : Rat)
    (fs : String) (live dead files capT capU capR : Rat)
    (sf : String) (pu prr nd bpu bpp : Rat)
    (lf le lw li hpu hpc nhu nhc tn tr tb tw ttw tte : Rat)
    (hn1 : b1.lookup "name" = some (.str "java.lang:type=Runtime"))
    (hu : b1.lookup "Uptime" = some (.num u))
    (hn2 : b2.lookup "name" = some (.str "Hadoop:service=NameNode,name=NameNodeStatus"))
    (hst : b2.lookup "State" = some (.str st))
    (hn3 : b3.lookup "name" = some (.str "Hadoop:service=NameNode,name=FSNamesystem"))
    (h31 : b3.lookup "BlocksTotal" = some (.num bt))
    (h32 : b3.lookup "UnderReplicatedBlocks" = some (.num bur))
    (h33 : b3.lookup "PendingReplicationBlocks" = some (.num bpr))
    (h34 : b3.lookup "ScheduledReplicationBlocks" = some (.num bsr))
    (h35 : b3.lookup "PostponedMisreplicatedBlocks" = some (.num bpm))
    (h36 : b3.lookup "PendingDeletionBlocks" = some (.num bpd))
    (h37 : b3.lookup "MissingBlocks" = some (.num bm))
    (h38 : b3.lookup "CorruptBlocks" = some (.num bc))
    (h39 : b3.lookup "ExcessBlocks" = some (.num be))
    (hn4 : b4.lookup "name" = some (.str "Hadoop:service=NameNode,name=FSNamesystemState"))
    (h40 : b4.lookup "FSState" = some (.str fs))
    (h41 : b4.lookup "NumLiveDataNodes" = some (.num live))
    (h42 : b4.lookup "NumDeadDataNodes" = some (.num dead))
    (h43 : b4.lookup "FilesTotal" = some (.num files))
    (h44 : b4.lookup "CapacityTotal" = some (.num capT))
    (h45 : b4.lookup "CapacityUsed" = some (.num capU))
    (h46 : b4.lookup "CapacityRemaining" = some (.num capR))
    (hn5 : b5.lookup "name" = some (.str "Hadoop:service=NameNode,name=NameNodeInfo"))
    (h50 : b5.lookup "Safemode" = some (.str sf))
    (h51 : b5.lookup "PercentUsed" = some (.num pu))
    (h52 : b5.lookup "PercentRemaining" = some (.num prr))
    (h53 : b5.lookup "NonDfsUsedSpace" = some (.num nd))
    (h54 : b5.lookup "BlockPoolUsedSpace" = some (.num bpu))
    (h55 : b5.lookup "PercentBlockPoolUsed" = some (.num bpp))
    (hn6 : b6.lookup "name" = some (.str "Hadoop:service=NameNode,name=JvmMetrics"))
    (h61 : b6.lookup "LogFatal" = some (.num lf))
    (h62 : b6.lookup "LogError" = some (.num le))
    (h63 : b6.lookup "LogWarn" = some (.num lw))
    (h64 : b6.lookup "LogInfo" = some (.num li))
    (h65 : b6.lookup "MemHeapUsedM" = some (.num hpu))
    (h66 : b6.lookup "MemHeapCommittedM" = some (.num hpc))
    (h67 : b6.lookup "MemNonHeapUsedM" = some (.num nhu))
    (h68 : b6.lookup "MemNonHeapCommittedM" = some (.num nhc))
    (h69 : b6.lookup "ThreadsNew" = some (.num tn))
    (h70 : b6.lookup "ThreadsRunnable" = some (.num tr))
    (h71 : b6.lookup "ThreadsBlocked" = some (.num tb))
    (h72 : b6.lookup "ThreadsWaiting" = some (.num tw))
    (h73 : b6.lookup "ThreadsTimedWaiting" = some (.num ttw))
    (h74 : b6.lookup "ThreadsTerminated" = some (.num tte)) :
    collectEnvelope [b1, b2, b3, b4, b5, b6] =
      ([⟨up, .gauge, 1⟩,
        ⟨uptime, .gauge, u⟩,
        ⟨state, .gauge, if st = "active" then 1 else 0⟩,
        ⟨dfsBlocksTotal, .gauge, bt⟩,
        ⟨dfsBlocksUnderReplicated, .gauge, bur⟩,
        ⟨dfsBlocksPendingReplication, .gauge, bpr⟩,
        ⟨dfsBlocksScheduledReplication, .gauge, bsr⟩,
        ⟨dfsBlocksPostponedMisreplicated, .gauge, bpm⟩,
        ⟨dfsBlocksPendingDeletion, .gauge, bpd⟩,
        ⟨dfsBlocksMissing, .gauge, bm⟩,
        ⟨dfsBlocksCorrupt, .gauge, bc⟩,
        ⟨dfsBlocksExcess, .gauge, be⟩,
        ⟨fsOperational, .gauge, if fs = "Operational" then 1 else 0⟩,
        ⟨dataNodesLive, .gauge, live⟩,
        ⟨dataNodesDead, .gauge, dead⟩,
        ⟨dfsFilesTotal, .gauge, files⟩,
        ⟨dfsCapacityBytesTotal, .gauge, capT⟩,
        ⟨dfsCapacityBytesUsed, .gauge, capU⟩,
        ⟨dfsCapacityBytesRemaining, .gauge, capR⟩,
        ⟨safemodeOn, .gauge, if sf = "" then 0 else 1⟩,
        ⟨dfsPercentUsed, .gauge, pu⟩,
        ⟨dfsPercentRemaining, .gauge, prr⟩,
        ⟨dfsNonDfsBytesUsed, .gauge, nd⟩,
        ⟨dfsBlockPoolBytesUsed, .gauge, bpu⟩,
        ⟨dfsBlockPoolPercentUsed, .gauge, bpp⟩,
        ⟨jvmLogFatal, .counter, lf⟩,
        ⟨jvmLogError, .counter, le⟩,
        ⟨jvmLogWarn, .counter, lw⟩,
        ⟨jvmLogInfo, .counter, li⟩,
        ⟨jvmMemHeapMegabytesUsed, .gauge, hpu⟩,
        ⟨jvmMemHeapMegabytesCommitted, .gauge, hpc⟩,
        ⟨jvmMemNonHeapMegabytesUsed, .gauge, nhu⟩,
        ⟨jvmMemNonHeapMegabytesCommitted, .gauge, nhc⟩,
        ⟨jvmThreadsNew, .gauge, tn⟩,
        ⟨jvmThreadsRunnable, .gauge, tr⟩,
        ⟨jvmThreadsBlocked, .gauge, tb⟩,
        ⟨jvmThreadsWaiting, .gauge, tw⟩,
        ⟨jvmThreadsTimedWaiting, .gauge, ttw⟩,
        ⟨jvmThreadsTerminated, .gauge, tte⟩], false) := by
  have e1 := runtimeEmits_collect b1 u hn1 hu
  have e2 := statusEmits_collect b2 st hn2 hst
  have e3 := fsNamesystemEmits_collect b3 bt bur bpr bsr bpm bpd bm bc be
    hn3 h31 h32 h33 h34 h35 h36 h37 h38 h39
  have e4 := fsNamesystemStateEmits_collect b4 fs live dead files capT capU capR
    hn4 h40 h41 h42 h43 h44 h45 h46
  have e5 := nameNodeInfoEmits_collect b5 sf pu prr nd bpu bpp
    hn5 h50 h51 h52 h53 h54 h55
  have e6 := jvmMetricsEmits_collect b6 lf le lw li hpu hpc nhu nhc tn tr tb tw ttw tte
    hn6 h61 h62 h63 h64 h65 h66 h67 h68 h69 h70 h71 h72 h73 h74
  have hnp : ∀ b ∈ [b1, b2, b3, b4, b5, b6], (emitSeq (beanEmits b)).2 = false := by
    intro b hb
    simp only [List.mem_cons, List.not_mem_nil, or_false] at hb
    rcases hb with rfl | rfl | rfl | rfl | rfl | rfl
    · rw [e1]
    · rw [e2]
    · rw [e3]
    · rw [e4]
    · rw [e5]
    · rw [e6]
  unfold collectEnvelope
  rw [collectBeans_join _ hnp]
  simp only [List.map_cons, List.map_nil, e1, e2, e3, e4, e5, e6,
    List.flatten_cons, List.flatten_nil, List.cons_append, List.nil_append,
    List.append_nil]

/-- Witness for C1 at a concrete fully populated six-bean envelope. -/
theorem collect_full_envelope_witness :
    collectEnvelope
      [[("name", Json.str "java.lang:type=Runtime"), ("Uptime", Json.num 1000)],
       [("name", Json.str "Hadoop:service=NameNode,name=NameNodeStatus"),
        ("State", Json.str "active")],
       [("name", Json.str "Hadoop:service=NameNode,name=FSNamesystem"),
        ("BlocksTotal", Json.num 1), ("UnderReplicatedBlocks", Json.num 2),
        ("PendingReplicationBlocks", Json.num 3), ("ScheduledReplicationBlocks", Json.num 4),
        ("PostponedMisreplicatedBlocks", Json.num 5), ("PendingDeletionBlocks", Json.num 6),
        ("MissingBlocks", Json.num 7), ("CorruptBlocks", Json.num 8),
        ("ExcessBlocks", Json.num 9)],
       [("name", Json.str "Hadoop:service=NameNode,name=FSNamesystemState"),
        ("FSState", Json.str "Operational"), ("NumLiveDataNodes", Json.num 10),
        ("NumDeadDataNodes", Json.num 11), ("FilesTotal", Json.num 12),
        ("CapacityTotal", Json.num 13), ("CapacityUsed", Json.num 14),
        ("CapacityRemaining", Json.num 15)],
       [("name", Json.str "Hadoop:service=NameNode,name=NameNodeInfo"),
        ("Safemode", Json.str ""), ("PercentUsed", Json.num 16),
        ("PercentRemaining", Json.num 17), ("NonDfsUsedSpace", Json.num 18),
        ("BlockPoolUsedSpace", Json.num 19), ("PercentBlockPoolUsed", Json.num 20)],
       [("name", Json.str "Hadoop:service=NameNode,name=JvmMetrics"),
        ("LogFatal", Json.num 21), ("LogError", Json.num 22), ("LogWarn", Json.num 23),
        ("LogInfo", Json.num 24), ("MemHeapUsedM", Json.num 25),
        ("MemHeapCommittedM", Json.num 26), ("MemNonHeapUsedM", Json.num 27),
        ("MemNonHeapCommittedM", Json.num 28), ("ThreadsNew", Json.num 29),
        ("ThreadsRunnable", Json.num 30), ("ThreadsBlocked", Json.num 31),
        ("ThreadsWaiting", Json.num 32), ("ThreadsTimedWaiting", Json.num 33),
        ("ThreadsTerminated", Json.num 34)]] =
      ([⟨up, .gauge, 1⟩,
        ⟨uptime, .gauge, 1000⟩,
        ⟨state, .gauge, if "active" = "active" then 1 else 0⟩,
        ⟨dfsBlocksTotal, .gauge, 1⟩,
        ⟨dfsBlocksUnderReplicated, .gauge, 2⟩,
        ⟨dfsBlocksPendingReplication, .gauge, 3⟩,
        ⟨dfsBlocksScheduledReplication, .gauge, 4⟩,
        ⟨dfsBlocksPostponedMisreplicated, .gauge, 5⟩,
        ⟨dfsBlocksPendingDeletion, .gauge, 6⟩,
        ⟨dfsBlocksMissing, .gauge, 7⟩,
        ⟨dfsBlocksCorrupt, .gauge, 8⟩,
        ⟨dfsBlocksExcess, .gauge, 9⟩,
        ⟨fsOperational, .gauge, if "Operational" = "Operational" then 1 else 0⟩,
        ⟨dataNodesLive, .gauge, 10⟩,
        ⟨dataNodesDead, .gauge, 11⟩,
        ⟨dfsFilesTotal, .gauge, 12⟩,
        ⟨dfsCapacityBytesTotal, .gauge, 13⟩,
        ⟨dfsCapacityBytesUsed, .gauge, 14⟩,
        ⟨dfsCapacityBytesRemaining, .gauge, 15⟩,
        ⟨safemodeOn, .gauge, if "" = "" then 0 else 1⟩,
        ⟨dfsPercentUsed, .gauge, 16⟩,
        ⟨dfsPercentRemaining, .gauge, 17⟩,
        ⟨dfsNonDfsBytesUsed, .gauge, 18⟩,
        ⟨dfsBlockPoolBytesUsed, .gauge, 19⟩,
        ⟨dfsBlockPoolPercentUsed, .gauge, 20⟩,
        ⟨jvmLogFatal, .counter, 21⟩,
        ⟨jvmLogError, .counter, 22⟩,
        ⟨jvmLogWarn, .counter, 23⟩,
        ⟨jvmLogInfo, .counter, 24⟩,
        ⟨jvmMemHeapMegabytesUsed, .gauge, 25⟩,
        ⟨jvmMemHeapMegabytesCommitted, .gauge, 26⟩,
        ⟨jvmMemNonHeapMegabytesUsed, .gauge, 27⟩,
        ⟨jvmMemNonHeapMegabytesCommitted, .gauge, 28⟩,
        ⟨jvmThreadsNew, .gauge, 29⟩,
        ⟨jvmThreadsRunnable, .gauge, 30⟩,
        ⟨jvmThreadsBlocked, .gauge, 31⟩,
        ⟨jvmThreadsWaiting, .gauge, 32⟩,
        ⟨jvmThreadsTimedWaiting, .gauge, 33⟩,
        ⟨jvmThreadsTerminated, .gauge, 34⟩], false) :=
  by
    apply collect_full_envelope
    all_goals rfl

end NamenodeExporter
